import Mathlib

/-!
# Verification of the plano-aws ledger data-access layer

Shallow embedding of the three Lambda handlers in
`src/infrastructure/lambda/` (`memory_upsert/handler.py`,
`db_migration/handler.py`, `timeline_handler/handler.py`) and proofs about
them.

Modelling conventions:
* JSON values are modelled by `JValue`; JSON numbers are modelled as
  integers (no claim depends on non-integer numerics).
* Timestamps (`time.time()`, `datetime.utcnow()`) are modelled as integer
  seconds; the ISO rendering of a timestamp is abstracted to the integer
  itself.  Each invocation observes a single instant `now`.
* Sleep durations are recorded in milliseconds in the effect trace.
* External nondeterminism (secret-store replies, pool construction and
  borrow outcomes, statement outcomes, uuid generation, the `ENVIRONMENT`
  variable) is supplied by an `Env` record; global mutable state
  (`db_pool`, `db_config_cache`) is threaded explicitly as `GlobalState`.
* Python exceptions are modelled by `PyErr`, distinguishing
  `psycopg2.OperationalError`, other `psycopg2.Error`s (with `pgcode`) and
  plain `Exception`, because the handlers' `except` clauses distinguish
  exactly these.
* Response bodies are modelled structurally as association lists
  (`json.dumps` is abstracted).
* The secret payload is modelled as an already-shaped `DbConfig` record;
  a `json.loads` failure on the secret string happens inside the fetch
  `try` block and is therefore folded into a failed fetch attempt.
  Request bodies are modelled as absent, unparseable, or JSON objects;
  JSON bodies that parse to a non-object are outside the model.
-/

/-- A JSON value (numbers modelled as integers). -/
inductive JValue where
  | jnull : JValue
  | jbool (b : Bool) : JValue
  | jnum (n : Int) : JValue
  | jstr (s : String) : JValue
  | jarr (xs : List JValue) : JValue
  | jobj (fs : List (String × JValue)) : JValue

/-- Python truthiness of a JSON value (`if not content:` in the handler). -/
def JValue.truthy : JValue → Bool
  | .jnull => false
  | .jbool b => b
  | .jnum n => n != 0
  | .jstr s => s ≠ ""
  | .jarr xs => !xs.isEmpty
  | .jobj fs => !fs.isEmpty

/-- Truthiness of a `dict.get` result (`None` for an absent key is falsy). -/
def truthyOpt : Option JValue → Bool
  | none => false
  | some v => v.truthy

/-- Python `==` between a JSON value and a string literal
(`layer == 'session'`): true only for an equal string. -/
def jeqStr : JValue → String → Bool
  | .jstr s, t => s = t
  | _, _ => false

/-- Python `str()` of a JSON value, used by the f-string
`f'memory.{memory_type}'`.  The rendering of containers is abstracted;
no claim depends on it. -/
def pyToString : JValue → String
  | .jstr s => s
  | .jnum n => toString n
  | .jbool true => "True"
  | .jbool false => "False"
  | .jnull => "None"
  | .jarr _ => "[...]"
  | .jobj _ => "\x7b...\x7d"

/-- Python `timedelta(hours=x)` argument conversion: accepts numbers
(`bool` is an `int` subclass); any other JSON value raises `TypeError`. -/
def asHours : JValue → Option Int
  | .jnum n => some n
  | .jbool true => some 1
  | .jbool false => some 0
  | _ => none

/-- An `Option String` rendered as a JSON value (`None` becomes `null`). -/
def optToJ : Option String → JValue
  | none => JValue.jnull
  | some s => JValue.jstr s

/-- Python truthiness of an optional string (`if tenant_id:`). -/
def optStrTruthy : Option String → Bool
  | none => false
  | some s => s ≠ ""

/-- The parsed database secret (`json.loads(secret['SecretString'])`),
modelled as an already-shaped record; `port` is optional because the code
reads it with `db_config.get('port', 5432)`. -/
structure DbConfig where
  host : String
  port : Option Int
  database : String
  username : String
  password : String

/-- A Python exception, split by how the handlers' `except` clauses
classify it: `psycopg2.OperationalError`, any other `psycopg2.Error`
(carrying `pgcode`), or a plain `Exception`. -/
inductive PyErr where
  | operationalError (msg : String) : PyErr
  | dbError (msg : String) (pgcode : Option String) : PyErr
  | genericError (msg : String) : PyErr

/-- Python `str(e)` for a modelled exception. -/
def PyErr.msg : PyErr → String
  | .operationalError m => m
  | .dbError m _ => m
  | .genericError m => m

/-- The connection pool, recorded by its construction parameters
(`pool.SimpleConnectionPool(1, 5, host=..., ..., connect_timeout=5)`). -/
structure Pool where
  minconn : Int
  maxconn : Int
  host : String
  port : Int
  database : String
  user : String
  password : String
  connect_timeout : Int

/-- The module-global credential cache
`db_config_cache = {'config': None, 'timestamp': 0}`. -/
structure CacheState where
  config : Option DbConfig
  timestamp : Int

/-- The module-global mutable state of `memory_upsert/handler.py`:
`db_pool` and `db_config_cache`. -/
structure GlobalState where
  db_pool : Option Pool
  cache : CacheState

/-- The initial module state (`db_pool = None`,
`db_config_cache = {'config': None, 'timestamp': 0}`). -/
def initialState : GlobalState :=
  { db_pool := none, cache := { config := none, timestamp := 0 } }

/-- The row inserted by the handler's single INSERT statement into
`ledger.universal_registry` (only the columns the statement names; the
remaining columns take their table defaults).  `metadata` is kept
structurally (`json.dumps` abstracted); the SQL column `"this"` is named
`thisCol` because `this` is reserved in Lean. -/
structure RegistryRow where
  id : String
  seq : Int
  entity_type : String
  who : String
  did : String
  thisCol : String
  /-- `at = now()`, server-assigned; modelled as the invocation instant -/
  at_ts : Int
  status : String
  description : JValue
  metadata : List (String × JValue)
  owner_id : Option String
  tenant_id : Option String
  visibility : String

/-- One observable side effect of an invocation, in order of occurrence. -/
inductive Effect where
  /-- a call to `secrets.get_secret_value` -/
  | secretCall : Effect
  /-- `time.sleep`, duration in milliseconds -/
  | sleep (ms : Nat) : Effect
  /-- `db_pool.closeall()` (best effort) -/
  | poolCloseAll : Effect
  /-- construction of `pool.SimpleConnectionPool(...)` -/
  | poolCreate (p : Pool) : Effect
  /-- a `getconn()` borrow attempt on the pool -/
  | poolGet : Effect
  /-- a `putconn(conn)` release back to the pool -/
  | poolPut : Effect
  /-- `cur.execute('SET app.<name> = %s', (value,))` -/
  | sqlSet (name : String) (value : String) : Effect
  /-- the `INSERT INTO ledger.universal_registry ...` statement -/
  | sqlInsert (row : RegistryRow) : Effect
  /-- `conn.commit()` -/
  | commit : Effect
  /-- `conn.close()` -/
  | connClose : Effect

/-- Nondeterministic inputs of one `memory_upsert` invocation: the clock,
`uuid.uuid4()`, `os.environ`, and the outcome of every external call. -/
structure Env where
  /-- `time.time()` / `datetime.utcnow()` at this invocation, in seconds -/
  now : Int
  /-- `str(uuid.uuid4())` -/
  freshId : String
  /-- `os.environ.get('ENVIRONMENT')` -/
  environment : String
  /-- outcome of secret-store fetch attempt n (1-based):
  the parsed secret, or `str(e)` of the raised exception -/
  secretFetch : Nat → Except String DbConfig
  /-- outcome of the health probe (`getconn`/`putconn`) on an existing
  pool: `none` means success, `some msg` a raised exception -/
  probeFail : Option String
  /-- exception raised by `db_pool.closeall()`, if any (always swallowed
  by the bare `except: pass`) -/
  closeallErr : Option String
  /-- exception raised by `pool.SimpleConnectionPool(...)`, if any -/
  createFail : Option PyErr
  /-- outcome of `pool_obj.getconn()` borrow attempt n (1-based):
  a connection id, or the raised exception -/
  borrow : Nat → Except PyErr Nat
  /-- exception raised by `cur.execute('SET app.user_id = %s', ...)` -/
  setUserFail : Option PyErr
  /-- exception raised by `cur.execute('SET app.tenant_id = %s', ...)` -/
  setTenantFail : Option PyErr
  /-- exception raised by the INSERT statement, if any -/
  insertFail : Option PyErr
  /-- exception raised by `conn.commit()`, if any -/
  commitFail : Option PyErr

/-- `DB_CONFIG_CACHE_TTL = 900  # 15 minutes in seconds` -/
def DB_CONFIG_CACHE_TTL : Int := 900

/-- Result of `get_db_config`: the returned config or raised exception,
the cache state after the call, and the effect trace. -/
structure ConfigOut where
  result : Except PyErr DbConfig
  cache : CacheState
  effects : List Effect

/-- The fetch-with-retry part of `get_db_config` (the `for attempt in
range(1, 4)` loop, unrolled): up to 3 `get_secret_value` attempts with
sleeps of 0.1s and 0.2s between them; on success the config is cached
with timestamp `now`; after 3 failures a plain `Exception` carrying
`str(last_error)` is raised and the cache is left unchanged. -/
def get_db_config_fetch (env : Env) (cache : CacheState) : ConfigOut :=
  match env.secretFetch 1 with
  | .ok cfg =>
      ⟨.ok cfg, { config := some cfg, timestamp := env.now }, [.secretCall]⟩
  | .error _ =>
      match env.secretFetch 2 with
      | .ok cfg =>
          ⟨.ok cfg, { config := some cfg, timestamp := env.now },
            [.secretCall, .sleep 100, .secretCall]⟩
      | .error _ =>
          match env.secretFetch 3 with
          | .ok cfg =>
              ⟨.ok cfg, { config := some cfg, timestamp := env.now },
                [.secretCall, .sleep 100, .secretCall, .sleep 200, .secretCall]⟩
          | .error e3 =>
              ⟨.error (.genericError
                  ("Failed to retrieve database credentials after 3 attempts: " ++ e3)),
                cache,
                [.secretCall, .sleep 100, .secretCall, .sleep 200, .secretCall]⟩

/-- `get_db_config()`: return the cached config when it exists and is
younger than `DB_CONFIG_CACHE_TTL`, otherwise fetch with retry. -/
def get_db_config (env : Env) (cache : CacheState) : ConfigOut :=
  match cache.config with
  | some cfg =>
      if env.now - cache.timestamp < DB_CONFIG_CACHE_TTL then
        ⟨.ok cfg, cache, []⟩
      else
        get_db_config_fetch env cache
  | none => get_db_config_fetch env cache

/-- `db_config['host'].split(':')[0]`: the characters before the first
colon (the whole string when there is none). -/
def hostBeforeColon (h : String) : String :=
  ⟨h.data.takeWhile (· ≠ ':')⟩

/-- The pool the code constructs from a config:
`pool.SimpleConnectionPool(1, 5, host=host, port=port,
database=..., user=..., password=..., connect_timeout=5)` with
`host = db_config['host'].split(':')[0]` and
`port = int(db_config.get('port', 5432))`. -/
def mkPool (cfg : DbConfig) : Pool :=
  { minconn := 1
    maxconn := 5
    host := hostBeforeColon cfg.host
    port := cfg.port.getD 5432
    database := cfg.database
    user := cfg.username
    password := cfg.password
    connect_timeout := 5 }

/-- Result of `get_db_pool` / `get_db_connection`: value or exception,
updated global state, effect trace. -/
structure AcqOut (α : Type) where
  result : Except PyErr α
  state : GlobalState
  effects : List Effect

/-- The pool-creation tail of `get_db_pool` (from `print('Creating new
database connection pool')` on): fetch config, construct the pool,
publish it in the global.  A config failure or a construction failure
propagates. -/
def create_pool (env : Env) (st : GlobalState) (effs : List Effect) :
    AcqOut Pool :=
  match get_db_config env st.cache with
  | ⟨.error e, cache1, ceffs⟩ =>
      ⟨.error e, { st with cache := cache1 }, effs ++ ceffs⟩
  | ⟨.ok cfg, cache1, ceffs⟩ =>
      match env.createFail with
      | some e => ⟨.error e, { st with cache := cache1 }, effs ++ ceffs⟩
      | none =>
          ⟨.ok (mkPool cfg), { db_pool := some (mkPool cfg), cache := cache1 },
            effs ++ ceffs ++ [.poolCreate (mkPool cfg)]⟩

/-- `get_db_pool()`: when a pool is held, probe it by `getconn` then
`putconn`; on probe success reuse it; on probe failure `closeall()`
(best effort, any exception swallowed by `except: pass`), clear the
global and fall through to creation.  When no pool is held, create one.
The probe failure is modelled as a single failed borrow. -/
def get_db_pool (env : Env) (st : GlobalState) : AcqOut Pool :=
  match st.db_pool with
  | some p =>
      match env.probeFail with
      | none => ⟨.ok p, st, [.poolGet, .poolPut]⟩
      | some _ =>
          create_pool env { st with db_pool := none }
            [.poolGet, .poolCloseAll]
  | none => create_pool env st []

/-- `get_db_connection()`: get the pool (a failure there propagates
immediately, before any borrow attempt), then borrow with up to 3
attempts and sleeps of 0.05s and 0.1s between them; after 3 failures
raise a plain `Exception` carrying `str(last_error)`. -/
def get_db_connection (env : Env) (st : GlobalState) : AcqOut Nat :=
  match get_db_pool env st with
  | ⟨.error e, st1, peffs⟩ => ⟨.error e, st1, peffs⟩
  | ⟨.ok _, st1, peffs⟩ =>
      match env.borrow 1 with
      | .ok c => ⟨.ok c, st1, peffs ++ [.poolGet]⟩
      | .error _ =>
          match env.borrow 2 with
          | .ok c => ⟨.ok c, st1, peffs ++ [.poolGet, .sleep 50, .poolGet]⟩
          | .error _ =>
              match env.borrow 3 with
              | .ok c =>
                  ⟨.ok c, st1,
                    peffs ++ [.poolGet, .sleep 50, .poolGet, .sleep 100, .poolGet]⟩
              | .error e3 =>
                  ⟨.error (.genericError
                      ("Failed to acquire database connection after 3 attempts: "
                        ++ e3.msg)),
                    st1,
                    peffs ++ [.poolGet, .sleep 50, .poolGet, .sleep 100, .poolGet]⟩

/-- The `body` field of the invocation event: absent (defaulted to
`'{}'`), a string on which `json.loads` raises (carrying `str(e)`), or a
JSON object (either a pre-parsed dict or a string parsing to one). -/
inductive BodyInput where
  | absent : BodyInput
  | invalid (msg : String) : BodyInput
  | obj (fields : List (String × JValue)) : BodyInput

/-- `body = event.get('body', '{}')` followed by
`if isinstance(body, str): body = json.loads(body)`. -/
def parseBody : BodyInput → Except String (List (String × JValue))
  | .absent => .ok []
  | .invalid msg => .error msg
  | .obj fs => .ok fs

/-- The invocation event: a body and `event.get('headers', {})`. -/
structure Event where
  body : BodyInput
  headers : List (String × String)

/-- `headers.get(k)` on the header dict. -/
def getHdr (hs : List (String × String)) (k : String) : Option String :=
  (hs.find? (fun p => p.1 == k)).map (fun p => p.2)

/-- `body.get(k)` on the parsed body dict. -/
def getB (fs : List (String × JValue)) (k : String) : Option JValue :=
  (fs.find? (fun p => p.1 == k)).map (fun p => p.2)

/-- `headers.get('x-logline-memory', headers.get('X-LogLine-Memory', 'off'))` -/
def memoryModeOf (hs : List (String × String)) : String :=
  (getHdr hs "x-logline-memory").getD ((getHdr hs "X-LogLine-Memory").getD "off")

/-- `headers.get('x-user-id', headers.get('X-User-Id', 'anonymous'))` -/
def userIdOf (hs : List (String × String)) : String :=
  (getHdr hs "x-user-id").getD ((getHdr hs "X-User-Id").getD "anonymous")

/-- `headers.get('x-tenant-id', headers.get('X-Tenant-Id'))` -/
def tenantIdOf (hs : List (String × String)) : Option String :=
  match getHdr hs "x-tenant-id" with
  | some v => some v
  | none => getHdr hs "X-Tenant-Id"

/-- `headers.get('x-logline-session', headers.get('X-LogLine-Session'))` -/
def sessionIdOf (hs : List (String × String)) : Option String :=
  match getHdr hs "x-logline-session" with
  | some v => some v
  | none => getHdr hs "X-LogLine-Session"

/-- `body.get('layer', 'session' if memory_mode == 'session-only' else
'persistent')` -/
def layerOf (fields : List (String × JValue)) (mode : String) : JValue :=
  (getB fields "layer").getD
    (if mode == "session-only" then .jstr "session" else .jstr "persistent")

/-- `body.get('ttl_hours', 24 if layer == 'session' else 168)` -/
def ttlHoursOf (fields : List (String × JValue)) (layer : JValue) : JValue :=
  (getB fields "ttl_hours").getD
    (if jeqStr layer "session" then .jnum 24 else .jnum 168)

/-- The status code the handler's `except` clauses assign to an
exception: `psycopg2.OperationalError` gets 503, everything else falls
to the generic `except Exception` clause and gets 500. -/
def errStatus : PyErr → Nat
  | .operationalError _ => 503
  | .dbError _ _ => 500
  | .genericError _ => 500

/-- The response body the handler's `except` clauses build: the 503
clause returns fixed text; the 500 clause echoes `str(e)` unless
`ENVIRONMENT` is `production`. -/
def errBody (env : Env) : PyErr → List (String × JValue)
  | .operationalError _ =>
      [("error", .jstr "Service temporarily unavailable"),
       ("message", .jstr "Database connection failed")]
  | e =>
      [("error", .jstr "Memory upsert failed"),
       ("message", .jstr (if env.environment == "production"
                          then "Internal server error" else e.msg))]

/-- Result of one `memory_upsert` invocation: HTTP status, structured
response body, effect trace, final global state. -/
structure HandlerResult where
  statusCode : Nat
  body : List (String × JValue)
  effects : List Effect
  state : GlobalState

/-- An exception raised after a connection was assigned to `conn`: the
matching `except` clause builds the response and the `finally` block runs
`conn.close()` (its own exception swallowed). -/
def finWith (env : Env) (st : GlobalState) (effs : List Effect) (e : PyErr) :
    HandlerResult :=
  ⟨errStatus e, errBody env e, effs ++ [.connClose], st⟩

/-- The `memory_upsert` handler.  Control flow, in source order: parse
the body (a `json.loads` failure is caught by `except Exception` → 500,
with `conn` still `None` so `finally` closes nothing); read the
capability header and return 403 when it is `off`; extract fields with
defaults; return 400 when `content` is falsy; acquire a connection (a
failure propagates with `conn` still unassigned, classified by the
`except` clauses); `SET app.user_id`, `SET app.tenant_id` when the
tenant is truthy; convert `ttl_hours` for `timedelta` (a non-numeric
value raises `TypeError` → 500); run the single INSERT; `commit`; return
201 with `id`, `created_at`, `ttl_at`.  On every path on which `conn`
was assigned, `finally` runs `conn.close()`. -/
def handler (env : Env) (st : GlobalState) (ev : Event) : HandlerResult :=
  match parseBody ev.body with
  | .error msg =>
      ⟨errStatus (.genericError msg), errBody env (.genericError msg), [], st⟩
  | .ok fields =>
      let memory_mode := memoryModeOf ev.headers
      if memory_mode == "off" then
        ⟨403, [("error", .jstr "Memory is disabled")], [], st⟩
      else
        let content := getB fields "content"
        let memory_type := (getB fields "type").getD (.jstr "note")
        let layer := layerOf fields memory_mode
        let ttl_hours := ttlHoursOf fields layer
        let sensitivity := (getB fields "sensitivity").getD (.jstr "internal")
        let tags := (getB fields "tags").getD (.jarr [])
        if !truthyOpt content then
          ⟨400, [("error", .jstr "content is required")], [], st⟩
        else
          match get_db_connection env st with
          | ⟨.error e, st1, ceffs⟩ => ⟨errStatus e, errBody env e, ceffs, st1⟩
          | ⟨.ok _conn, st1, ceffs⟩ =>
              let user_id := userIdOf ev.headers
              let tenant_id := tenantIdOf ev.headers
              let session_id := sessionIdOf ev.headers
              let effs0 := ceffs ++ [.sqlSet "app.user_id" user_id]
              match env.setUserFail with
              | some e => finWith env st1 effs0 e
              | none =>
                  let effs1 :=
                    if optStrTruthy tenant_id then
                      effs0 ++ [.sqlSet "app.tenant_id" (tenant_id.getD "")]
                    else effs0
                  match (if optStrTruthy tenant_id then env.setTenantFail
                         else none) with
                  | some e => finWith env st1 effs1 e
                  | none =>
                      let memory_id := env.freshId
                      match asHours ttl_hours with
                      | none =>
                          finWith env st1 effs1
                            (.genericError
                              "unsupported type for timedelta hours component")
                      | some hours =>
                          let ttl_at : Int := env.now + hours * 3600
                          let metadata : List (String × JValue) :=
                            [("layer", layer),
                             ("type", memory_type),
                             ("tags", tags),
                             ("sensitivity", sensitivity),
                             ("session_id", optToJ session_id),
                             ("ttl_at", .jnum ttl_at)]
                          let row : RegistryRow :=
                            { id := memory_id
                              seq := 0
                              entity_type := "memory"
                              who := "kernel:memory@v1"
                              did := "upserted"
                              thisCol := "memory." ++ pyToString memory_type
                              at_ts := env.now
                              status := "active"
                              description := content.getD .jnull
                              metadata := metadata
                              owner_id := some user_id
                              tenant_id := tenant_id
                              visibility := "private" }
                          let effs2 := effs1 ++ [.sqlInsert row]
                          match env.insertFail with
                          | some e => finWith env st1 effs2 e
                          | none =>
                              let effs3 := effs2 ++ [.commit]
                              match env.commitFail with
                              | some e => finWith env st1 effs3 e
                              | none =>
                                  ⟨201,
                                   [("id", .jstr memory_id),
                                    ("created_at", .jnum env.now),
                                    ("ttl_at", .jnum ttl_at)],
                                   effs3 ++ [.connClose],
                                   st1⟩

/-- SQL `IS NOT DISTINCT FROM` on nullable text: equality that treats
two NULLs as equal. -/
def isNotDistinct (a b : Option String) : Bool := a == b

/-- The `ur_select_policy` installed by migration step 5:
`SELECT` is allowed when the row's `owner_id` IS NOT DISTINCT FROM
`app.current_user_id()`, or `visibility = 'public'`, or (`tenant_id` IS
NOT DISTINCT FROM `app.current_tenant_id()` and `visibility` is
`tenant` or `public`).  `current_setting(..., true)` yields NULL when
the session variable is unset, hence the `Option String` session
arguments. -/
def ur_select_policy (sessionUser sessionTenant : Option String)
    (row : RegistryRow) : Bool :=
  isNotDistinct row.owner_id sessionUser
    || row.visibility == "public"
    || (isNotDistinct row.tenant_id sessionTenant
        && (row.visibility == "tenant" || row.visibility == "public"))

/-- Nondeterministic inputs of one `db_migration` invocation. -/
structure MigEnv where
  /-- `datetime.utcnow()` at entry (`start_time`), seconds -/
  startTime : Int
  /-- `datetime.utcnow()` at response construction, seconds -/
  endTime : Int
  /-- `os.environ.get('ENVIRONMENT')` -/
  environment : String
  /-- exception text of `get_secret_value`/`json.loads`, if they fail -/
  secretFail : Option String
  /-- exception raised by `psycopg2.connect(...)`, if any -/
  connectFail : Option PyErr
  /-- outcome of the statements of migration step i (1-based, 1..9):
  `none` means the step's `cur.execute` calls all succeed -/
  stepFail : Nat → Option PyErr
  /-- `os.path.exists(seed_path)` for step 9's seed script -/
  seedPresent : Bool

/-- Which migration steps are fatal: step 6 (pgvector extension +
embeddings table) and step 9 (seed script) are wrapped in their own
`try/except` that logs a warning and continues; every other step's
exception propagates to the handler's `except` clauses. -/
def stepFatal (i : Nat) : Bool :=
  !(i == 6 || i == 9)

/-- Effective outcome of step i: step 9 executes the seed SQL only when
the seed file exists (`if os.path.exists(seed_path):`), so without a
seed file step 9 cannot fail. -/
def effFail (env : MigEnv) (i : Nat) : Option PyErr :=
  if i == 9 && !env.seedPresent then none else env.stepFail i

/-- Run migration steps in order.  Returns the propagating exception (if
a fatal step failed), the list of steps attempted, and the list of steps
whose failure was logged and swallowed.  A fatal failure stops the run;
a non-fatal failure is recorded and the run continues. -/
def runStepsFrom (fail : Nat → Option PyErr) : List Nat →
    Option PyErr × List Nat × List Nat
  | [] => (none, [], [])
  | i :: rest =>
      match fail i with
      | none =>
          let r := runStepsFrom fail rest
          (r.1, i :: r.2.1, r.2.2)
      | some err =>
          if stepFatal i then (some err, [i], [])
          else
            let r := runStepsFrom fail rest
            (r.1, i :: r.2.1, i :: r.2.2)

/-- `dict.update`: overwrite the value of an existing key, append a new
key at the end (`response_body.update(details)` in
`create_error_response`). -/
def dictUpdate (base upd : List (String × JValue)) :
    List (String × JValue) :=
  upd.foldl
    (fun acc kv =>
      if acc.any (fun p => p.1 == kv.1) then
        acc.map (fun p => if p.1 == kv.1 then (p.1, kv.2) else p)
      else acc ++ [kv])
    base

/-- Result of one `db_migration` invocation. -/
structure MigResult where
  statusCode : Nat
  body : List (String × JValue)
  /-- steps whose statements were attempted, in order -/
  stepsAttempted : List Nat
  /-- steps whose failure was logged and swallowed -/
  swallowed : List Nat

/-- The migration handler's `except` clauses: `psycopg2.Error` (which
includes `OperationalError`) maps to
`create_error_response(500, "Database migration failed",
{"error_code": db_error.pgcode})`; a plain `Exception` maps to
`create_error_response(500, "Migration failed", {"error": str(error)})`
(the error text replaced by `None` in production).  Note that
`dict.update` makes the `"error"` detail overwrite the `"error"` message
slot. -/
def migEx (env : MigEnv) (e : PyErr) (att sw : List Nat) : MigResult :=
  match e with
  | .genericError m =>
      ⟨500,
        dictUpdate
          [("error", .jstr "Migration failed"), ("timestamp", .jnum env.endTime)]
          [("error", if env.environment == "production" then .jnull else .jstr m)],
        att, sw⟩
  | .operationalError _ =>
      ⟨500,
        dictUpdate
          [("error", .jstr "Database migration failed"),
           ("timestamp", .jnum env.endTime)]
          [("error_code", .jnull)],
        att, sw⟩
  | .dbError _ code =>
      ⟨500,
        dictUpdate
          [("error", .jstr "Database migration failed"),
           ("timestamp", .jnum env.endTime)]
          [("error_code", optToJ code)],
        att, sw⟩

/-- The `db_migration` handler (`migrate()`): fetch the secret (failure
returns `create_error_response(500, "Configuration error")`), connect
(failure propagates to the `except` clauses), run steps 1–9 in order
(6 and 9 best-effort, the rest fatal), and on success return 200 with
message, timestamp, duration and environment. -/
def migrate (env : MigEnv) : MigResult :=
  match env.secretFail with
  | some _ =>
      ⟨500,
        [("error", .jstr "Configuration error"), ("timestamp", .jnum env.endTime)],
        [], []⟩
  | none =>
      match env.connectFail with
      | some e => migEx env e [] []
      | none =>
          let r := runStepsFrom (effFail env) [1, 2, 3, 4, 5, 6, 7, 8, 9]
          match r.1 with
          | some e => migEx env e r.2.1 r.2.2
          | none =>
              ⟨200,
                [("message", .jstr "Migration completed successfully"),
                 ("timestamp", .jnum env.endTime),
                 ("duration_seconds", .jnum (env.endTime - env.startTime)),
                 ("environment", .jstr env.environment)],
                r.2.1, r.2.2⟩

/-! ## Concrete fixtures used by witnesses and counterexamples -/

/-- A concrete parsed secret. -/
def cfg0 : DbConfig :=
  { host := "db.example.com:5432", port := some 5432,
    database := "loglineos", username := "u", password := "p" }

/-- An environment in which every external call succeeds. -/
def envOK : Env :=
  { now := 1000, freshId := "id-1", environment := "dev",
    secretFetch := fun _ => .ok cfg0, probeFail := none,
    closeallErr := none, createFail := none,
    borrow := fun _ => .ok 7,
    setUserFail := none, setTenantFail := none,
    insertFail := none, commitFail := none }

/-- A valid request: capability `on`, body `{"content": "hello"}`. -/
def evOK : Event :=
  { body := .obj [("content", .jstr "hello")],
    headers := [("x-logline-memory", "on")] }

/-- The row the all-success run inserts for `evOK`. -/
def rowOK : RegistryRow :=
  { id := "id-1", seq := 0, entity_type := "memory",
    who := "kernel:memory@v1", did := "upserted",
    thisCol := "memory.note", at_ts := 1000, status := "active",
    description := .jstr "hello",
    metadata :=
      [("layer", .jstr "persistent"), ("type", .jstr "note"),
       ("tags", .jarr []), ("sensitivity", .jstr "internal"),
       ("session_id", .jnull), ("ttl_at", .jnum 605800)],
    owner_id := some "anonymous", tenant_id := none,
    visibility := "private" }

theorem handlerOK_status : (handler envOK initialState evOK).statusCode = 201 :=
  rfl

theorem handlerOK_effects : (handler envOK initialState evOK).effects =
    [.secretCall, .poolCreate (mkPool cfg0), .poolGet,
     .sqlSet "app.user_id" "anonymous", .sqlInsert rowOK,
     .commit, .connClose] := rfl

/-! ## Helper lemmas -/

/-- Effects that the data-access layer (credential fetch, pool
management, borrow) can produce; in particular neither SQL statements
nor `conn.close()`. -/
def isInfraEffect : Effect → Bool
  | .secretCall => true
  | .sleep _ => true
  | .poolCloseAll => true
  | .poolCreate _ => true
  | .poolGet => true
  | .poolPut => true
  | .sqlSet _ _ => false
  | .sqlInsert _ => false
  | .commit => false
  | .connClose => false

/-- `isBorrow` recognises a `getconn` borrow attempt. -/
def isBorrow : Effect → Bool
  | .poolGet => true
  | _ => false

/-- `isSecretCall` recognises a secret-store call. -/
def isSecretCall : Effect → Bool
  | .secretCall => true
  | _ => false

/-- `isInsert` recognises the INSERT statement. -/
def isInsert : Effect → Bool
  | .sqlInsert _ => true
  | _ => false

theorem config_fetch_effects_infra (env : Env) (c : CacheState) :
    ∀ ef ∈ (get_db_config_fetch env c).effects, isInfraEffect ef = true := by
  unfold get_db_config_fetch
  split
  · intro ef hef; fin_cases hef; rfl
  · split
    · intro ef hef; fin_cases hef <;> rfl
    · split
      · intro ef hef; fin_cases hef <;> rfl
      · intro ef hef; fin_cases hef <;> rfl

theorem config_effects_infra (env : Env) (c : CacheState) :
    ∀ ef ∈ (get_db_config env c).effects, isInfraEffect ef = true := by
  unfold get_db_config
  split
  · split
    · intro ef hef; simp at hef
    · exact config_fetch_effects_infra env c
  · exact config_fetch_effects_infra env c

theorem create_pool_effects_infra (env : Env) (st : GlobalState)
    (effs : List Effect) (h : ∀ ef ∈ effs, isInfraEffect ef = true) :
    ∀ ef ∈ (create_pool env st effs).effects, isInfraEffect ef = true := by
  unfold create_pool
  split
  · rename_i cache1 ceffs heq
    intro ef hef
    rcases List.mem_append.mp hef with h1 | h2
    · exact h ef h1
    · have := config_effects_infra env st.cache
      rw [heq] at this
      exact this ef h2
  · rename_i cfg cache1 ceffs heq
    split
    · intro ef hef
      rcases List.mem_append.mp hef with h1 | h2
      · exact h ef h1
      · have := config_effects_infra env st.cache
        rw [heq] at this
        exact this ef h2
    · intro ef hef
      rcases List.mem_append.mp hef with h1 | h2
      · rcases List.mem_append.mp h1 with h3 | h4
        · exact h ef h3
        · have := config_effects_infra env st.cache
          rw [heq] at this
          exact this ef h4
      · simp at h2; subst h2; rfl

theorem pool_effects_infra (env : Env) (st : GlobalState) :
    ∀ ef ∈ (get_db_pool env st).effects, isInfraEffect ef = true := by
  unfold get_db_pool
  split
  · split
    · intro ef hef; fin_cases hef <;> rfl
    · refine create_pool_effects_infra env _ _ ?_
      intro ef hef; fin_cases hef <;> rfl
  · refine create_pool_effects_infra env _ _ ?_
    intro ef hef; simp at hef

theorem conn_effects_infra (env : Env) (st : GlobalState) :
    ∀ ef ∈ (get_db_connection env st).effects, isInfraEffect ef = true := by
  unfold get_db_connection
  split
  · rename_i e st1 peffs heq
    have := pool_effects_infra env st
    rw [heq] at this
    exact this
  · rename_i st1 peffs heq
    have hp := pool_effects_infra env st
    rw [heq] at hp
    split
    · intro ef hef
      rcases List.mem_append.mp hef with h1 | h2
      · exact hp ef h1
      · fin_cases h2; rfl
    · split
      · intro ef hef
        rcases List.mem_append.mp hef with h1 | h2
        · exact hp ef h1
        · fin_cases h2 <;> rfl
      · split
        all_goals
          intro ef hef
          rcases List.mem_append.mp hef with h1 | h2
          · exact hp ef h1
          · fin_cases h2 <;> rfl

theorem infra_not_insert {ef : Effect} (h : isInfraEffect ef = true) :
    isInsert ef = false := by
  cases ef <;> simp_all [isInfraEffect, isInsert]

theorem infra_countP_isInsert_zero {l : List Effect}
    (h : ∀ ef ∈ l, isInfraEffect ef = true) : l.countP isInsert = 0 := by
  rw [List.countP_eq_zero]
  intro ef hef
  simp [infra_not_insert (h ef hef)]

theorem infra_no_sqlInsert {l : List Effect}
    (h : ∀ ef ∈ l, isInfraEffect ef = true) (row : RegistryRow) :
    Effect.sqlInsert row ∉ l := by
  intro hmem
  exact absurd (h _ hmem) (by simp [isInfraEffect])

theorem errStatus_ne_201 (e : PyErr) : errStatus e ≠ 201 := by
  cases e <;> simp [errStatus]

/-- For a row with `visibility = 'private'` and a concrete owner, the
select policy grants access exactly to sessions whose bound user id is
the owner. -/
theorem private_row_owner_only (row : RegistryRow) (uid : String)
    (hv : row.visibility = "private") (ho : row.owner_id = some uid)
    (u t : Option String) :
    ur_select_policy u t row = true ↔ u = some uid := by
  simp only [ur_select_policy, isNotDistinct, hv, ho]
  rw [show (("private" : String) == "public") = false from rfl,
      show (("private" : String) == "tenant") = false from rfl]
  simp only [Bool.or_false, Bool.and_false, beq_iff_eq]
  exact eq_comm

/-- An environment in which every secret-store fetch attempt fails. -/
def envAllFail : Env := { envOK with secretFetch := fun _ => .error "boom" }

/-- C7: `get_db_config` returns a cached record younger than the 900s TTL
without contacting the secret store; otherwise it queries the store with
up to 3 attempts separated by 0.1s and 0.2s sleeps, caches the result
with the current timestamp on success, and after 3 failed attempts
raises an error carrying the last underlying error text while leaving
the cache unchanged. -/
theorem c7_credential_cache (env : Env) (cache : CacheState) :
    (∀ cfg, cache.config = some cfg →
        env.now - cache.timestamp < DB_CONFIG_CACHE_TTL →
        get_db_config env cache = ⟨.ok cfg, cache, []⟩)
    ∧ ((cache.config = none ∨ ¬ env.now - cache.timestamp < DB_CONFIG_CACHE_TTL) →
        get_db_config env cache = get_db_config_fetch env cache)
    ∧ (∀ cfg, env.secretFetch 1 = .ok cfg →
        get_db_config_fetch env cache =
          ⟨.ok cfg, ⟨some cfg, env.now⟩, [.secretCall]⟩)
    ∧ (∀ e1 cfg, env.secretFetch 1 = .error e1 → env.secretFetch 2 = .ok cfg →
        get_db_config_fetch env cache =
          ⟨.ok cfg, ⟨some cfg, env.now⟩, [.secretCall, .sleep 100, .secretCall]⟩)
    ∧ (∀ e1 e2 cfg, env.secretFetch 1 = .error e1 → env.secretFetch 2 = .error e2 →
        env.secretFetch 3 = .ok cfg →
        get_db_config_fetch env cache =
          ⟨.ok cfg, ⟨some cfg, env.now⟩,
            [.secretCall, .sleep 100, .secretCall, .sleep 200, .secretCall]⟩)
    ∧ (∀ e1 e2 e3, env.secretFetch 1 = .error e1 → env.secretFetch 2 = .error e2 →
        env.secretFetch 3 = .error e3 →
        get_db_config_fetch env cache =
          ⟨.error (.genericError
              ("Failed to retrieve database credentials after 3 attempts: " ++ e3)),
            cache,
            [.secretCall, .sleep 100, .secretCall, .sleep 200, .secretCall]⟩) := by
  refine ⟨?_, ?_, ?_, ?_, ?_, ?_⟩
  · intro cfg hc hlt
    simp [get_db_config, hc, hlt]
  · intro hmiss
    rcases hmiss with hnone | hstale
    · simp [get_db_config, hnone]
    · cases hc : cache.config with
      | none => simp [get_db_config, hc]
      | some cfg => simp [get_db_config, hc, hstale]
  · intro cfg h1
    simp [get_db_config_fetch, h1]
  · intro e1 cfg h1 h2
    simp [get_db_config_fetch, h1, h2]
  · intro e1 e2 cfg h1 h2 h3
    simp [get_db_config_fetch, h1, h2, h3]
  · intro e1 e2 e3 h1 h2 h3
    simp [get_db_config_fetch, h1, h2, h3]

theorem c7_credential_cache_witness :
    get_db_config envOK ⟨some cfg0, 500⟩ = ⟨.ok cfg0, ⟨some cfg0, 500⟩, []⟩
    ∧ get_db_config_fetch envAllFail ⟨none, 0⟩ =
        ⟨.error (.genericError
            "Failed to retrieve database credentials after 3 attempts: boom"),
          ⟨none, 0⟩,
          [.secretCall, .sleep 100, .secretCall, .sleep 200, .secretCall]⟩ :=
  ⟨(c7_credential_cache envOK ⟨some cfg0, 500⟩).1 cfg0 rfl (by decide),
   (c7_credential_cache envAllFail ⟨none, 0⟩).2.2.2.2.2 "boom" "boom" "boom"
     rfl rfl rfl⟩

/-- C8: `get_db_pool` probes a held pool by borrowing and immediately
returning one connection and reuses it on probe success; on probe
failure it discards the pool via a best-effort `closeall` whose errors
are swallowed (the outcome is independent of the `closeall` exception)
and recreates; recreation obtains credentials via `get_db_config` and
constructs a pool bounded [1, 5] with `connect_timeout=5`; a
construction failure propagates as the raised error. -/
theorem c8_pool_manager (env : Env) (st : GlobalState) :
    (∀ p, st.db_pool = some p → env.probeFail = none →
        get_db_pool env st = ⟨.ok p, st, [.poolGet, .poolPut]⟩)
    ∧ (∀ p m, st.db_pool = some p → env.probeFail = some m →
        get_db_pool env st =
          create_pool env { st with db_pool := none } [.poolGet, .poolCloseAll])
    ∧ (∀ x, get_db_pool { env with closeallErr := x } st = get_db_pool env st)
    ∧ (∀ cfg cache1 ceffs, st.db_pool = none →
        get_db_config env st.cache = ⟨.ok cfg, cache1, ceffs⟩ →
        env.createFail = none →
        get_db_pool env st =
          ⟨.ok (mkPool cfg), { db_pool := some (mkPool cfg), cache := cache1 },
            ceffs ++ [.poolCreate (mkPool cfg)]⟩)
    ∧ (∀ cfg cache1 ceffs e, st.db_pool = none →
        get_db_config env st.cache = ⟨.ok cfg, cache1, ceffs⟩ →
        env.createFail = some e →
        (get_db_pool env st).result = .error e)
    ∧ (∀ cfg, (mkPool cfg).minconn = 1 ∧ (mkPool cfg).maxconn = 5
        ∧ (mkPool cfg).connect_timeout = 5) := by
  refine ⟨?_, ?_, ?_, ?_, ?_, ?_⟩
  · intro p hp hprobe
    simp [get_db_pool, hp, hprobe]
  · intro p m hp hprobe
    simp [get_db_pool, hp, hprobe]
  · intro x
    rfl
  · intro cfg cache1 ceffs hnone hcfg hcreate
    simp [get_db_pool, hnone, create_pool, hcfg, hcreate]
  · intro cfg cache1 ceffs e hnone hcfg hcreate
    simp [get_db_pool, hnone, create_pool, hcfg, hcreate]
  · intro cfg
    exact ⟨rfl, rfl, rfl⟩

theorem c8_pool_manager_witness :
    get_db_pool envOK
        { db_pool := some (mkPool cfg0), cache := ⟨some cfg0, 500⟩ } =
      ⟨.ok (mkPool cfg0),
        { db_pool := some (mkPool cfg0), cache := ⟨some cfg0, 500⟩ },
        [.poolGet, .poolPut]⟩
    ∧ get_db_pool envOK initialState =
        ⟨.ok (mkPool cfg0),
          { db_pool := some (mkPool cfg0), cache := ⟨some cfg0, 1000⟩ },
          [.secretCall, .poolCreate (mkPool cfg0)]⟩
    ∧ (mkPool cfg0).minconn = 1 ∧ (mkPool cfg0).maxconn = 5
    ∧ (mkPool cfg0).connect_timeout = 5 :=
  ⟨(c8_pool_manager envOK _).1 (mkPool cfg0) rfl rfl,
   (c8_pool_manager envOK initialState).2.2.2.1 cfg0 ⟨some cfg0, 1000⟩
      [.secretCall] rfl rfl rfl,
   ((c8_pool_manager envOK initialState).2.2.2.2.2 cfg0).1,
   ((c8_pool_manager envOK initialState).2.2.2.2.2 cfg0).2.1,
   ((c8_pool_manager envOK initialState).2.2.2.2.2 cfg0).2.2⟩

/-- An environment in which every pool borrow attempt fails. -/
def envBorrowFail : Env :=
  { envOK with borrow := fun _ => .error (.operationalError "pool exhausted") }

/-- An environment in which the secret store is down. -/
def envSecretFail : Env :=
  { envOK with secretFetch := fun _ => .error "secrets down" }

/-- C5 (amended): when all three pool-borrow attempts fail, acquisition
fails terminally after exactly 3 attempts separated by 0.05s and 0.1s
sleeps with a plain `Exception`, which the handler's generic `except`
clause surfaces as a 500 response (not 503). -/
theorem c5_borrow_exhaustion (env : Env) (st : GlobalState) (ev : Event)
    (fields : List (String × JValue)) (p : Pool) (stp : GlobalState)
    (peffs : List Effect) (e1 e2 e3 : PyErr)
    (hp : parseBody ev.body = .ok fields)
    (hm : memoryModeOf ev.headers ≠ "off")
    (hc : truthyOpt (getB fields "content") = true)
    (hpool : get_db_pool env st = ⟨.ok p, stp, peffs⟩)
    (hb1 : env.borrow 1 = .error e1)
    (hb2 : env.borrow 2 = .error e2)
    (hb3 : env.borrow 3 = .error e3) :
    get_db_connection env st =
      ⟨.error (.genericError
          ("Failed to acquire database connection after 3 attempts: " ++ e3.msg)),
        stp, peffs ++ [.poolGet, .sleep 50, .poolGet, .sleep 100, .poolGet]⟩
    ∧ (handler env st ev).statusCode = 500
    ∧ (handler env st ev).statusCode ≠ 503 := by
  have hmb : (memoryModeOf ev.headers == "off") = false := by
    simpa using hm
  have hconn : get_db_connection env st =
      ⟨.error (.genericError
          ("Failed to acquire database connection after 3 attempts: " ++ e3.msg)),
        stp, peffs ++ [.poolGet, .sleep 50, .poolGet, .sleep 100, .poolGet]⟩ := by
    simp [get_db_connection, hpool, hb1, hb2, hb3]
  refine ⟨hconn, ?_, ?_⟩ <;>
    simp [handler, hp, hmb, hc, hconn, errStatus]

theorem c5_borrow_exhaustion_witness :
    (handler envBorrowFail initialState evOK).statusCode = 500
    ∧ (handler envBorrowFail initialState evOK).statusCode ≠ 503 :=
  ⟨(c5_borrow_exhaustion envBorrowFail initialState evOK
      [("content", .jstr "hello")] (mkPool cfg0)
      { db_pool := some (mkPool cfg0), cache := ⟨some cfg0, 1000⟩ }
      [.secretCall, .poolCreate (mkPool cfg0)]
      (.operationalError "pool exhausted") (.operationalError "pool exhausted")
      (.operationalError "pool exhausted")
      rfl (by decide) rfl rfl rfl rfl rfl).2.1,
   (c5_borrow_exhaustion envBorrowFail initialState evOK
      [("content", .jstr "hello")] (mkPool cfg0)
      { db_pool := some (mkPool cfg0), cache := ⟨some cfg0, 1000⟩ }
      [.secretCall, .poolCreate (mkPool cfg0)]
      (.operationalError "pool exhausted") (.operationalError "pool exhausted")
      (.operationalError "pool exhausted")
      rfl (by decide) rfl rfl rfl rfl rfl).2.2⟩

/-- C5 counterexample: a concrete execution in which all three borrow
attempts fail (the claim's premise), yet the handler's response status
is 500, not the claimed 503: the retry loop raises a plain `Exception`,
which the generic `except Exception` clause maps to 500. -/
theorem c5_counterexample :
    envBorrowFail.borrow 1 = .error (.operationalError "pool exhausted")
    ∧ envBorrowFail.borrow 2 = .error (.operationalError "pool exhausted")
    ∧ envBorrowFail.borrow 3 = .error (.operationalError "pool exhausted")
    ∧ (handler envBorrowFail initialState evOK).statusCode = 500
    ∧ (handler envBorrowFail initialState evOK).statusCode ≠ 503 :=
  ⟨rfl, rfl, rfl, rfl, by decide⟩

/-- C6 (amended): when the credential fetch fails on 3 consecutive
attempts (0.1s and 0.2s backoff), pool creation fails before the borrow
loop is ever entered, so connection acquisition fails with the
credential error after zero pool-level borrow attempts, and the handler
surfaces it as a 500 response (not 503). -/
theorem c6_credential_exhaustion (env : Env) (st : GlobalState) (ev : Event)
    (fields : List (String × JValue)) (e1 e2 e3 : String)
    (hpool : st.db_pool = none)
    (hcache : st.cache.config = none)
    (hs1 : env.secretFetch 1 = .error e1)
    (hs2 : env.secretFetch 2 = .error e2)
    (hs3 : env.secretFetch 3 = .error e3)
    (hp : parseBody ev.body = .ok fields)
    (hm : memoryModeOf ev.headers ≠ "off")
    (hc : truthyOpt (getB fields "content") = true) :
    get_db_connection env st =
      ⟨.error (.genericError
          ("Failed to retrieve database credentials after 3 attempts: " ++ e3)),
        st, [.secretCall, .sleep 100, .secretCall, .sleep 200, .secretCall]⟩
    ∧ (get_db_connection env st).effects.countP isBorrow = 0
    ∧ (get_db_connection env st).effects.countP isSecretCall = 3
    ∧ (handler env st ev).statusCode = 500
    ∧ (handler env st ev).statusCode ≠ 503 := by
  have hmb : (memoryModeOf ev.headers == "off") = false := by
    simpa using hm
  obtain ⟨dp, cc⟩ := st
  obtain ⟨cfg?, ts⟩ := cc
  have hdp : dp = none := hpool
  have hcf : cfg? = none := hcache
  subst hdp; subst hcf
  have hconn : get_db_connection env ⟨none, ⟨none, ts⟩⟩ =
      ⟨.error (.genericError
          ("Failed to retrieve database credentials after 3 attempts: " ++ e3)),
        ⟨none, ⟨none, ts⟩⟩,
        [.secretCall, .sleep 100, .secretCall, .sleep 200, .secretCall]⟩ := by
    simp [get_db_connection, get_db_pool, create_pool, get_db_config,
      get_db_config_fetch, hs1, hs2, hs3]
  refine ⟨hconn, ?_, ?_, ?_, ?_⟩
  · rw [hconn]; rfl
  · rw [hconn]; rfl
  · simp [handler, hp, hmb, hc, hconn, errStatus]
  · simp [handler, hp, hmb, hc, hconn, errStatus]

theorem c6_credential_exhaustion_witness :
    (get_db_connection envSecretFail initialState).effects.countP isBorrow = 0
    ∧ (handler envSecretFail initialState evOK).statusCode = 500 :=
  ⟨(c6_credential_exhaustion envSecretFail initialState evOK
      [("content", .jstr "hello")] "secrets down" "secrets down" "secrets down"
      rfl rfl rfl rfl rfl rfl (by decide) rfl).2.1,
   (c6_credential_exhaustion envSecretFail initialState evOK
      [("content", .jstr "hello")] "secrets down" "secrets down" "secrets down"
      rfl rfl rfl rfl rfl rfl (by decide) rfl).2.2.2.1⟩

/-- C6 counterexample: with the credential fetch failing on all 3
attempts, the execution performs zero pool-level borrow attempts, not
the 3 the claim asserts, and the handler returns 500, not the claimed
503. -/
theorem c6_counterexample :
    envSecretFail.secretFetch 1 = .error "secrets down"
    ∧ envSecretFail.secretFetch 2 = .error "secrets down"
    ∧ envSecretFail.secretFetch 3 = .error "secrets down"
    ∧ (get_db_connection envSecretFail initialState).effects.countP isBorrow = 0
    ∧ (get_db_connection envSecretFail initialState).effects.countP isBorrow ≠ 3
    ∧ (handler envSecretFail initialState evOK).statusCode = 500
    ∧ (handler envSecretFail initialState evOK).statusCode ≠ 503 :=
  ⟨rfl, rfl, rfl, rfl, by decide, rfl, by decide⟩

/-- A request with capability `off` and an empty JSON-object body. -/
def evOff : Event :=
  { body := .obj [], headers := [("x-logline-memory", "off")] }

/-- A request with capability enabled and no `content` field. -/
def evNoContent : Event :=
  { body := .obj [], headers := [("x-logline-memory", "on")] }

/-- A request with capability `off` whose body string fails `json.loads`. -/
def evOffBadBody : Event :=
  { body := .invalid "Expecting value: line 1 column 1 (char 0)",
    headers := [("x-logline-memory", "off")] }

/-- C2 (amended): for every request whose body is absent or parses as a
JSON object, a capability header of `off` yields the 403
capability-disabled response with an empty effect trace (no credential
fetch, no pool use, no statement), and with the capability enabled an
absent or falsy `content` yields the 400 validation response, likewise
with an empty effect trace.  (A body that fails JSON parsing is instead
answered 500 before the capability check — see the counterexample —
still without any database access.) -/
theorem c2_validation_no_db (env : Env) (st : GlobalState) (ev : Event)
    (fields : List (String × JValue))
    (hp : parseBody ev.body = .ok fields) :
    (memoryModeOf ev.headers = "off" →
      handler env st ev =
        ⟨403, [("error", .jstr "Memory is disabled")], [], st⟩)
    ∧ (memoryModeOf ev.headers ≠ "off" →
        truthyOpt (getB fields "content") = false →
        handler env st ev =
          ⟨400, [("error", .jstr "content is required")], [], st⟩) := by
  constructor
  · intro hoff
    simp [handler, hp, hoff]
  · intro hon hc
    have hmb : (memoryModeOf ev.headers == "off") = false := by simpa using hon
    simp [handler, hp, hmb, hc]

theorem c2_validation_no_db_witness :
    handler envOK initialState evOff =
      ⟨403, [("error", .jstr "Memory is disabled")], [], initialState⟩
    ∧ handler envOK initialState evNoContent =
        ⟨400, [("error", .jstr "content is required")], [], initialState⟩ :=
  ⟨(c2_validation_no_db envOK initialState evOff [] rfl).1 rfl,
   (c2_validation_no_db envOK initialState evNoContent [] rfl).2 (by decide) rfl⟩

/-- C2 counterexample: a request whose capability header is `off` but
whose body string fails `json.loads` is answered 500, not 403, because
the body is parsed before the capability check (`json.loads` at the top
of the `try` block raises, and `except Exception` returns 500).  No
database access happens on this path either. -/
theorem c2_counterexample :
    memoryModeOf evOffBadBody.headers = "off"
    ∧ (handler envOK initialState evOffBadBody).statusCode = 500
    ∧ (handler envOK initialState evOffBadBody).statusCode ≠ 403
    ∧ (handler envOK initialState evOffBadBody).effects = [] :=
  ⟨rfl, rfl, by decide, rfl⟩

/-- C1 (code bug): on a successful upsert the `finally` block runs
`conn.close()` — the borrowed connection is closed directly and
`putconn` is never called, contrary to the source's own
`# Return connection to pool` comment and to the claim: the effect
trace of a successful run ends with `connClose` and contains no
`poolPut` release after the borrow. -/
theorem c1_close_instead_of_release :
    (handler envOK initialState evOK).statusCode = 201
    ∧ Effect.connClose ∈ (handler envOK initialState evOK).effects
    ∧ Effect.poolPut ∉ (handler envOK initialState evOK).effects := by
  refine ⟨handlerOK_status, ?_, ?_⟩ <;> rw [handlerOK_effects] <;> simp

/-- Characterization of a 201 run of the handler: the body parses, a
connection is acquired, the ttl is numeric, every statement succeeds,
and the response and effect trace have exactly the shape of the
success path. -/
theorem handler_201_shape (env : Env) (st : GlobalState) (ev : Event) :
    (handler env st ev).statusCode = 201 →
    ∃ fields c st1 ceffs hours,
      parseBody ev.body = .ok fields
      ∧ get_db_connection env st = ⟨.ok c, st1, ceffs⟩
      ∧ asHours (ttlHoursOf fields (layerOf fields (memoryModeOf ev.headers)))
          = some hours
      ∧ handler env st ev =
          ⟨201,
            [("id", .jstr env.freshId), ("created_at", .jnum env.now),
             ("ttl_at", .jnum (env.now + hours * 3600))],
            ceffs ++ [.sqlSet "app.user_id" (userIdOf ev.headers)]
              ++ (if optStrTruthy (tenantIdOf ev.headers)
                  then [.sqlSet "app.tenant_id" ((tenantIdOf ev.headers).getD "")]
                  else [])
              ++ [.sqlInsert
                    { id := env.freshId, seq := 0, entity_type := "memory",
                      who := "kernel:memory@v1", did := "upserted",
                      thisCol :=
                        "memory." ++ pyToString ((getB fields "type").getD (.jstr "note")),
                      at_ts := env.now, status := "active",
                      description := (getB fields "content").getD .jnull,
                      metadata :=
                        [("layer", layerOf fields (memoryModeOf ev.headers)),
                         ("type", (getB fields "type").getD (.jstr "note")),
                         ("tags", (getB fields "tags").getD (.jarr [])),
                         ("sensitivity", (getB fields "sensitivity").getD (.jstr "internal")),
                         ("session_id", optToJ (sessionIdOf ev.headers)),
                         ("ttl_at", .jnum (env.now + hours * 3600))],
                      owner_id := some (userIdOf ev.headers),
                      tenant_id := tenantIdOf ev.headers,
                      visibility := "private" }]
              ++ [.commit] ++ [.connClose],
            st1⟩ := by
  unfold handler
  dsimp only
  split
  · intro h; simp [errStatus] at h
  · rename_i fields hparse
    split
    · intro h; simp at h
    · split
      · intro h; simp at h
      · split
        · rename_i e st1 ceffs hconn
          intro h; cases e <;> simp [errStatus] at h
        · rename_i c st1 ceffs hconn
          split
          · rename_i e heq
            intro h; cases e <;> simp [finWith, errStatus] at h
          · split
            · rename_i e heq
              intro h; cases e <;> simp [finWith, errStatus] at h
            · split
              · intro h; simp [finWith, errStatus] at h
              · rename_i hours hhours
                split
                · rename_i e heq
                  intro h; cases e <;> simp [finWith, errStatus] at h
                · split
                  · rename_i e heq
                    intro h; cases e <;> simp [finWith, errStatus] at h
                  · intro _
                    refine ⟨fields, c, st1, ceffs, hours, hparse, hconn, hhours, ?_⟩
                    by_cases ht : optStrTruthy (tenantIdOf ev.headers) = true
                    · rw [if_pos ht, if_pos ht]
                    · rw [if_neg ht, if_neg ht]
                      simp

/-- C3: every 201 run binds the caller's user id (and, when truthy, the
tenant id) into the connection-local session settings, performs exactly
one insert, whose row has `seq = 0`, `entity_type = 'memory'`,
`status = 'active'` and a metadata object with exactly the keys
`layer`, `type`, `tags`, `sensitivity`, `session_id`, `ttl_at`, and the
response body carries the generated id, the creation timestamp, and the
computed expiry (which also appears in the row's metadata). -/
theorem c3_success_insert (env : Env) (st : GlobalState) (ev : Event)
    (h201 : (handler env st ev).statusCode = 201) :
    Effect.sqlSet "app.user_id" (userIdOf ev.headers) ∈ (handler env st ev).effects
    ∧ (optStrTruthy (tenantIdOf ev.headers) = true →
        Effect.sqlSet "app.tenant_id" ((tenantIdOf ev.headers).getD "")
          ∈ (handler env st ev).effects)
    ∧ (handler env st ev).effects.countP isInsert = 1
    ∧ (∀ row, Effect.sqlInsert row ∈ (handler env st ev).effects →
        row.seq = 0 ∧ row.entity_type = "memory" ∧ row.status = "active"
        ∧ row.metadata.map Prod.fst =
            ["layer", "type", "tags", "sensitivity", "session_id", "ttl_at"])
    ∧ (∃ t : Int,
        (handler env st ev).body =
          [("id", .jstr env.freshId), ("created_at", .jnum env.now),
           ("ttl_at", .jnum t)]
        ∧ ∀ row, Effect.sqlInsert row ∈ (handler env st ev).effects →
            ("ttl_at", .jnum t) ∈ row.metadata) := by
  obtain ⟨fields, c, st1, ceffs, hours, hparse, hconn, hhours, heq⟩ :=
    handler_201_shape env st ev h201
  have hinfra := conn_effects_infra env st
  rw [hconn] at hinfra
  have hz : ceffs.countP isInsert = 0 := infra_countP_isInsert_zero hinfra
  refine ⟨?_, ?_, ?_, ?_, ?_⟩
  · rw [heq]; simp
  · intro ht; rw [heq]; simp [ht]
  · rw [heq]
    by_cases ht : optStrTruthy (tenantIdOf ev.headers) = true <;>
      simp [ht, List.countP_append, hz, List.countP_cons, isInsert]
  · intro row hr
    rw [heq] at hr
    have hnoc : Effect.sqlInsert row ∉ ceffs := infra_no_sqlInsert hinfra row
    by_cases ht : optStrTruthy (tenantIdOf ev.headers) = true <;>
      [skip; skip] <;>
      · simp [ht, hnoc] at hr
        subst hr
        exact ⟨rfl, rfl, rfl, rfl⟩
  · refine ⟨env.now + hours * 3600, by rw [heq], ?_⟩
    intro row hr
    rw [heq] at hr
    have hnoc : Effect.sqlInsert row ∉ ceffs := infra_no_sqlInsert hinfra row
    by_cases ht : optStrTruthy (tenantIdOf ev.headers) = true <;>
      · simp [ht, hnoc] at hr
        subst hr
        simp

theorem c3_success_insert_witness :
    Effect.sqlSet "app.user_id" "anonymous"
      ∈ (handler envOK initialState evOK).effects
    ∧ (handler envOK initialState evOK).effects.countP isInsert = 1 :=
  ⟨(c3_success_insert envOK initialState evOK rfl).1,
   (c3_success_insert envOK initialState evOK rfl).2.2.1⟩

/-- C4: for a request supplying neither `layer` nor `ttl_hours`:
capability `session-only` defaults the layer to `session` with
`ttl_hours = 24`; any other enabled capability defaults the layer to
`persistent` with `ttl_hours = 168`, and a 201 response then reports
`created_at = now` and `ttl_at = now + 168` hours, the same expiry
stored in the entry's metadata. -/
theorem c4_layer_ttl_defaults (env : Env) (st : GlobalState) (ev : Event)
    (fields : List (String × JValue))
    (hp : parseBody ev.body = .ok fields)
    (hlayer : getB fields "layer" = none)
    (httl : getB fields "ttl_hours" = none) :
    (memoryModeOf ev.headers = "session-only" →
      layerOf fields (memoryModeOf ev.headers) = .jstr "session"
      ∧ ttlHoursOf fields (layerOf fields (memoryModeOf ev.headers)) = .jnum 24
      ∧ ((handler env st ev).statusCode = 201 →
          ∀ row, Effect.sqlInsert row ∈ (handler env st ev).effects →
            ("layer", .jstr "session") ∈ row.metadata
            ∧ ("ttl_at", .jnum (env.now + 24 * 3600)) ∈ row.metadata))
    ∧ (memoryModeOf ev.headers ≠ "off" → memoryModeOf ev.headers ≠ "session-only" →
        layerOf fields (memoryModeOf ev.headers) = .jstr "persistent"
        ∧ ttlHoursOf fields (layerOf fields (memoryModeOf ev.headers)) = .jnum 168
        ∧ ((handler env st ev).statusCode = 201 →
            (handler env st ev).body =
              [("id", .jstr env.freshId), ("created_at", .jnum env.now),
               ("ttl_at", .jnum (env.now + 168 * 3600))]
            ∧ ∀ row, Effect.sqlInsert row ∈ (handler env st ev).effects →
                ("layer", .jstr "persistent") ∈ row.metadata
                ∧ ("ttl_at", .jnum (env.now + 168 * 3600)) ∈ row.metadata)) := by
  constructor
  · intro hmode
    have hl : layerOf fields (memoryModeOf ev.headers) = .jstr "session" := by
      simp [layerOf, hlayer, hmode]
    have hth : ttlHoursOf fields (layerOf fields (memoryModeOf ev.headers))
        = .jnum 24 := by
      simp [ttlHoursOf, httl, hl, jeqStr]
    refine ⟨hl, hth, ?_⟩
    intro h201 row hr
    obtain ⟨fields2, c, st1, ceffs, hours, hparse, hconn, hhours, heq⟩ :=
      handler_201_shape env st ev h201
    have hfe : fields2 = fields := by
      rw [hp] at hparse
      exact (Except.ok.injEq _ _).mp hparse.symm
    subst hfe
    rw [hth] at hhours
    have hhv : hours = 24 := by
      simpa [asHours] using hhours.symm
    subst hhv
    rw [heq] at hr
    have hinfra := conn_effects_infra env st
    rw [hconn] at hinfra
    have hnoc : Effect.sqlInsert row ∉ ceffs := infra_no_sqlInsert hinfra row
    by_cases ht : optStrTruthy (tenantIdOf ev.headers) = true <;>
      · simp [ht, hnoc] at hr
        subst hr
        exact ⟨by simp [hl], by simp⟩
  · intro hoff hsess
    have hl : layerOf fields (memoryModeOf ev.headers) = .jstr "persistent" := by
      have : (memoryModeOf ev.headers == "session-only") = false := by
        simpa using hsess
      simp [layerOf, hlayer, this]
    have hth : ttlHoursOf fields (layerOf fields (memoryModeOf ev.headers))
        = .jnum 168 := by
      simp [ttlHoursOf, httl, hl, jeqStr]
    refine ⟨hl, hth, ?_⟩
    intro h201
    obtain ⟨fields2, c, st1, ceffs, hours, hparse, hconn, hhours, heq⟩ :=
      handler_201_shape env st ev h201
    have hfe : fields2 = fields := by
      rw [hp] at hparse
      exact (Except.ok.injEq _ _).mp hparse.symm
    subst hfe
    rw [hth] at hhours
    have hhv : hours = 168 := by
      simpa [asHours] using hhours.symm
    subst hhv
    constructor
    · rw [heq]
    · intro row hr
      rw [heq] at hr
      have hinfra := conn_effects_infra env st
      rw [hconn] at hinfra
      have hnoc : Effect.sqlInsert row ∉ ceffs := infra_no_sqlInsert hinfra row
      by_cases ht : optStrTruthy (tenantIdOf ev.headers) = true <;>
        · simp [ht, hnoc] at hr
          subst hr
          exact ⟨by simp [hl], by simp⟩

/-- A session-only request supplying neither layer nor ttl_hours. -/
def evSessionOnly : Event :=
  { body := .obj [("content", .jstr "hello")],
    headers := [("x-logline-memory", "session-only")] }

theorem c4_layer_ttl_defaults_witness :
    (layerOf [("content", .jstr "hello")] (memoryModeOf evSessionOnly.headers)
        = .jstr "session"
      ∧ layerOf [("content", .jstr "hello")] (memoryModeOf evOK.headers)
        = .jstr "persistent")
    ∧ (handler envOK initialState evOK).body =
        [("id", .jstr "id-1"), ("created_at", .jnum 1000),
         ("ttl_at", .jnum 605800)] :=
  ⟨⟨((c4_layer_ttl_defaults envOK initialState evSessionOnly
        [("content", .jstr "hello")] rfl rfl rfl).1 rfl).1,
    ((c4_layer_ttl_defaults envOK initialState evOK
        [("content", .jstr "hello")] rfl rfl rfl).2 (by decide) (by decide)).1⟩,
   (((c4_layer_ttl_defaults envOK initialState evOK
        [("content", .jstr "hello")] rfl rfl rfl).2 (by decide) (by decide)).2.2
      rfl).1⟩

/-- Any row the handler ever passes to the INSERT statement — on the
success path or on a path where the INSERT or the commit subsequently
fails — has `visibility = 'private'` and the caller's user id as owner.
The handler never reads a `visibility` value from the request body. -/
theorem handler_insert_owner_private (env : Env) (st : GlobalState)
    (ev : Event) (row : RegistryRow)
    (h : Effect.sqlInsert row ∈ (handler env st ev).effects) :
    row.visibility = "private" ∧ row.owner_id = some (userIdOf ev.headers) := by
  unfold handler at h
  dsimp only at h
  split at h
  · simp at h
  · split at h
    · simp at h
    · split at h
      · simp at h
      · split at h
        · rename_i e st1 ceffs hconn
          have hinfra := conn_effects_infra env st
          rw [hconn] at hinfra
          exact absurd h (infra_no_sqlInsert hinfra row)
        · rename_i c st1 ceffs hconn
          have hinfra := conn_effects_infra env st
          rw [hconn] at hinfra
          have hnoc : Effect.sqlInsert row ∉ ceffs :=
            infra_no_sqlInsert hinfra row
          split at h
          · simp [finWith, hnoc] at h
          · split at h
            · by_cases ht : optStrTruthy (tenantIdOf ev.headers) = true <;>
                simp [finWith, ht, hnoc] at h
            · split at h
              · by_cases ht : optStrTruthy (tenantIdOf ev.headers) = true <;>
                  simp [finWith, ht, hnoc] at h
              · split at h
                · by_cases ht : optStrTruthy (tenantIdOf ev.headers) = true <;>
                    · simp [finWith, ht, hnoc] at h
                      subst h
                      exact ⟨rfl, rfl⟩
                · split at h
                  · by_cases ht : optStrTruthy (tenantIdOf ev.headers) = true <;>
                      · simp [finWith, ht, hnoc] at h
                        subst h
                        exact ⟨rfl, rfl⟩
                  · by_cases ht : optStrTruthy (tenantIdOf ev.headers) = true <;>
                      · simp [ht, hnoc] at h
                        subst h
                        exact ⟨rfl, rfl⟩

/-- C10: every registry row the memory-upsert operation inserts has
`visibility = 'private'` (whatever the request body contains) and the
caller's user id as `owner_id`, and under the migration's
`ur_select_policy` such a row is readable exactly by sessions whose
bound user id is that owner — no tenant-visible or public memory entry
can be created through this operation. -/
theorem c10_private_owner_only (env : Env) (st : GlobalState) (ev : Event)
    (row : RegistryRow)
    (h : Effect.sqlInsert row ∈ (handler env st ev).effects) :
    row.visibility = "private"
    ∧ row.owner_id = some (userIdOf ev.headers)
    ∧ ∀ u t, ur_select_policy u t row = true ↔ u = some (userIdOf ev.headers) := by
  obtain ⟨hv, ho⟩ := handler_insert_owner_private env st ev row h
  exact ⟨hv, ho, fun u t => private_row_owner_only row _ hv ho u t⟩

theorem c10_private_owner_only_witness :
    rowOK.visibility = "private"
    ∧ rowOK.owner_id = some "anonymous"
    ∧ ∀ u t, ur_select_policy u t rowOK = true ↔ u = some "anonymous" :=
  c10_private_owner_only envOK initialState evOK rowOK
    (by rw [handlerOK_effects]; simp)

/-- C9 (amended): a failure in step 6 (pgvector + embeddings table) or
step 9 (seed script) is swallowed and the migration still returns 200;
a failure in any of the fatal steps 1–5 or 8 (all earlier steps having
succeeded) aborts the run with a 500 response whose body carries only
`error`, `timestamp` and (for database errors) `error_code` keys — it
does not identify the failing step. -/
theorem c9_step_fatality (env : MigEnv) :
    (env.secretFail = none → env.connectFail = none →
      (∀ i, stepFatal i = true → env.stepFail i = none) →
      (migrate env).statusCode = 200
      ∧ (∀ e, env.stepFail 6 = some e → 6 ∈ (migrate env).swallowed)
      ∧ (∀ e, env.seedPresent = true → env.stepFail 9 = some e →
          9 ∈ (migrate env).swallowed))
    ∧ (∀ i e, (i = 1 ∨ i = 2 ∨ i = 3 ∨ i = 4 ∨ i = 5 ∨ i = 8) →
        env.secretFail = none → env.connectFail = none →
        (∀ j, j < i → effFail env j = none) →
        env.stepFail i = some e →
        (migrate env).statusCode = 500
        ∧ ((migrate env).body.map Prod.fst = ["error", "timestamp"]
            ∨ (migrate env).body.map Prod.fst = ["error", "timestamp", "error_code"])) := by
  constructor
  · intro hs hc hfatal
    have h1 := hfatal 1 rfl
    have h2 := hfatal 2 rfl
    have h3 := hfatal 3 rfl
    have h4 := hfatal 4 rfl
    have h5 := hfatal 5 rfl
    have h7 := hfatal 7 rfl
    have h8 := hfatal 8 rfl
    cases h6 : env.stepFail 6 <;> cases hsp : env.seedPresent <;>
      cases h9 : env.stepFail 9 <;>
        simp [migrate, hs, hc, runStepsFrom, effFail, stepFatal,
          h1, h2, h3, h4, h5, h6, h7, h8, h9, hsp]
  · intro i e hi hs hc hprev hstep
    rcases hi with rfl | rfl | rfl | rfl | rfl | rfl
    · cases e <;>
        simp [migrate, hs, hc, runStepsFrom, effFail, hstep, stepFatal, migEx,
          dictUpdate]
    · have hp1 : env.stepFail 1 = none := by
        simpa [effFail] using hprev 1 (by norm_num)
      cases e <;>
        simp [migrate, hs, hc, runStepsFrom, effFail, hp1, hstep, stepFatal,
          migEx, dictUpdate]
    · have hp1 : env.stepFail 1 = none := by
        simpa [effFail] using hprev 1 (by norm_num)
      have hp2 : env.stepFail 2 = none := by
        simpa [effFail] using hprev 2 (by norm_num)
      cases e <;>
        simp [migrate, hs, hc, runStepsFrom, effFail, hp1, hp2, hstep,
          stepFatal, migEx, dictUpdate]
    · have hp1 : env.stepFail 1 = none := by
        simpa [effFail] using hprev 1 (by norm_num)
      have hp2 : env.stepFail 2 = none := by
        simpa [effFail] using hprev 2 (by norm_num)
      have hp3 : env.stepFail 3 = none := by
        simpa [effFail] using hprev 3 (by norm_num)
      cases e <;>
        simp [migrate, hs, hc, runStepsFrom, effFail, hp1, hp2, hp3, hstep,
          stepFatal, migEx, dictUpdate]
    · have hp1 : env.stepFail 1 = none := by
        simpa [effFail] using hprev 1 (by norm_num)
      have hp2 : env.stepFail 2 = none := by
        simpa [effFail] using hprev 2 (by norm_num)
      have hp3 : env.stepFail 3 = none := by
        simpa [effFail] using hprev 3 (by norm_num)
      have hp4 : env.stepFail 4 = none := by
        simpa [effFail] using hprev 4 (by norm_num)
      cases e <;>
        simp [migrate, hs, hc, runStepsFrom, effFail, hp1, hp2, hp3, hp4,
          hstep, stepFatal, migEx, dictUpdate]
    · have hp1 : env.stepFail 1 = none := by
        simpa [effFail] using hprev 1 (by norm_num)
      have hp2 : env.stepFail 2 = none := by
        simpa [effFail] using hprev 2 (by norm_num)
      have hp3 : env.stepFail 3 = none := by
        simpa [effFail] using hprev 3 (by norm_num)
      have hp4 : env.stepFail 4 = none := by
        simpa [effFail] using hprev 4 (by norm_num)
      have hp5 : env.stepFail 5 = none := by
        simpa [effFail] using hprev 5 (by norm_num)
      have hp6 : env.stepFail 6 = none := by
        simpa [effFail] using hprev 6 (by norm_num)
      have hp7 : env.stepFail 7 = none := by
        simpa [effFail] using hprev 7 (by norm_num)
      cases e <;>
        simp [migrate, hs, hc, runStepsFrom, effFail, hp1, hp2, hp3, hp4, hp5,
          hp6, hp7, hstep, stepFatal, migEx, dictUpdate]

/-- A migration run in which everything succeeds. -/
def migEnvOK : MigEnv :=
  { startTime := 0, endTime := 5, environment := "dev",
    secretFail := none, connectFail := none,
    stepFail := fun _ => none, seedPresent := true }

/-- A run in which only step 6 (pgvector) fails. -/
def migEnvPgvectorFail : MigEnv :=
  { migEnvOK with stepFail := fun i =>
      if i == 6 then some (.dbError "pgvector missing" (some "58P01"))
      else none }

/-- A run in which step 3 (registry table) fails. -/
def migEnvStep3Fail : MigEnv :=
  { migEnvOK with stepFail := fun i =>
      if i == 3 then some (.dbError "boom" (some "42601")) else none }

/-- A run in which step 2 (session functions) fails. -/
def migEnvStep2Fail : MigEnv :=
  { migEnvOK with stepFail := fun i =>
      if i == 2 then some (.dbError "boom" (some "42601")) else none }

/-- A run in which step 4 (indexes) fails with the same error. -/
def migEnvStep4Fail : MigEnv :=
  { migEnvOK with stepFail := fun i =>
      if i == 4 then some (.dbError "boom" (some "42601")) else none }

theorem c9_step_fatality_witness :
    (migrate migEnvPgvectorFail).statusCode = 200
    ∧ 6 ∈ (migrate migEnvPgvectorFail).swallowed
    ∧ (migrate migEnvStep3Fail).statusCode = 500 :=
  ⟨((c9_step_fatality migEnvPgvectorFail).1 rfl rfl
      (by
        intro i hi
        have hne : i ≠ 6 := by
          intro h6
          rw [h6] at hi
          exact absurd hi (by decide)
        simp [migEnvPgvectorFail, migEnvOK, hne])).1,
   ((c9_step_fatality migEnvPgvectorFail).1 rfl rfl
      (by
        intro i hi
        have hne : i ≠ 6 := by
          intro h6
          rw [h6] at hi
          exact absurd hi (by decide)
        simp [migEnvPgvectorFail, migEnvOK, hne])).2.1 _ rfl,
   ((c9_step_fatality migEnvStep3Fail).2 3 (.dbError "boom" (some "42601"))
      (by tauto) rfl rfl
      (by intro j hj; interval_cases j <;> rfl) rfl).1⟩

/-- C9 counterexample to "the response identifies the failing step":
two runs failing at different fatal steps (2 and 4) with the same
database error produce byte-identical 500 responses — the response
carries no step name or index — even though the two runs stopped at
different steps. -/
theorem c9_counterexample :
    (migrate migEnvStep2Fail).statusCode = 500
    ∧ (migrate migEnvStep4Fail).statusCode = 500
    ∧ (migrate migEnvStep2Fail).body = (migrate migEnvStep4Fail).body
    ∧ (migrate migEnvStep2Fail).stepsAttempted
        ≠ (migrate migEnvStep4Fail).stepsAttempted :=
  ⟨rfl, rfl, rfl, by decide⟩
